import Mathlib

/-
Verification development for the MaritimeFlow AIS ingestion pipeline.

Shallow embedding of src/src/data_ingestion/ais_collectors.py,
src/src/data_ingestion/base_collector.py and the pydantic record model in
src/src/models/vessel.py.

Modelling conventions:
- Python floats are modelled as rationals.  JSON numeric fields arrive as
  Option values (missing key = none).  Non-numeric strings in numeric
  fields, whose float() conversion would raise and make parse return None,
  are outside the model; omitting them only removes further rejections.
- datetime values are modelled as an abstract rational clock; ISO-8601
  timestamp strings are modelled as already parsed values.  Each parse
  function receives the current clock value, standing for
  datetime.utcnow(), used when a timestamp field is missing.
- A pydantic model construction is a function returning Option: none when
  a field validator fails (pydantic raises ValidationError, which the
  surrounding try/except of each parse_message turns into a None return).
-/

/-- Timestamps (datetime values) are modelled as rational numbers. -/
abbrev Timestamp := ℚ

/-- NavigationStatus enumeration, from src/src/models/vessel.py lines 38-55. -/
inductive NavigationStatus where
  | UNDER_WAY_USING_ENGINE
  | AT_ANCHOR
  | NOT_UNDER_COMMAND
  | RESTRICTED_MANEUVERABILITY
  | CONSTRAINED_BY_DRAFT
  | MOORED
  | AGROUND
  | FISHING
  | UNDER_WAY_SAILING
  | RESERVED_HSC
  | RESERVED_WIG
  | RESERVED_1
  | RESERVED_2
  | RESERVED_3
  | AIS_SART
  | NOT_DEFINED
  deriving DecidableEq, Repr

/-- Fields of VesselPositionCreate (vessel.py lines 209-246) that the
collectors populate.  Fields the collectors never set (rate_of_turn,
position_accuracy, signal_strength, message_type) keep their defaults and
are omitted from the model. -/
structure VesselPositionCreate where
  mmsi : ℤ
  latitude : ℚ
  longitude : ℚ
  course_over_ground : Option ℚ
  speed_over_ground : Option ℚ
  true_heading : Option ℚ
  navigation_status : Option NavigationStatus
  destination : Option String
  eta : Option Timestamp
  timestamp : Timestamp
  message_timestamp : Timestamp
  data_source : String
  raw_message : Option String
  deriving DecidableEq, Repr

/-- Pydantic bound on course_over_ground and true_heading:
Field(None, ge=0, lt=360) on an optional value (vessel.py lines 214, 216). -/
def headingFieldOk (o : Option ℚ) : Bool :=
  o.all fun c => decide (0 ≤ c) && decide (c < 360)

/-- Pydantic bound on speed_over_ground: Field(None, ge=0)
(vessel.py line 215). -/
def speedFieldOk (o : Option ℚ) : Bool :=
  o.all fun s => decide (0 ≤ s)

/-- Pydantic bounds on latitude and longitude: Field(..., ge=-90, le=90)
and Field(..., ge=-180, le=180) plus the two explicit validators
(vessel.py lines 212-213 and 225-235). -/
def coordFieldOk (lat lon : ℚ) : Bool :=
  decide (-90 ≤ lat) && decide (lat ≤ 90) && decide (-180 ≤ lon) && decide (lon ≤ 180)

/-- Constructing a VesselPositionCreate runs the pydantic validators; a
violated bound raises ValidationError, modelled as none.  Argument order
follows the field order of the structure. -/
def VesselPositionCreate.make (mmsi : ℤ) (lat lon : ℚ)
    (cog sog hdg : Option ℚ) (ns : Option NavigationStatus)
    (dest : Option String) (eta : Option Timestamp)
    (ts msgts : Timestamp) (src : String) (raw : Option String) :
    Option VesselPositionCreate :=
  if coordFieldOk lat lon && headingFieldOk cog && speedFieldOk sog && headingFieldOk hdg then
    some ⟨mmsi, lat, lon, cog, sog, hdg, ns, dest, eta, ts, msgts, src, raw⟩
  else
    none

/-- Python expression float(x) if x else None applied to an optional
numeric value: 0 is falsy, so a present 0 maps to absent. -/
def pyTruthyFloat (o : Option ℚ) : Option ℚ :=
  match o with
  | none => none
  | some v => if v = 0 then none else some v

/-- The status_map dictionary lookup status_map.get(nav_status,
NavigationStatus.NOT_DEFINED), identical in
AISStreamCollector.parse_message (ais_collectors.py lines 346-358) and
DigitalTrafficCollector.parse_message (lines 567-579). -/
def statusMap (n : ℤ) : NavigationStatus :=
  if n = 0 then .UNDER_WAY_USING_ENGINE
  else if n = 1 then .AT_ANCHOR
  else if n = 2 then .NOT_UNDER_COMMAND
  else if n = 3 then .RESTRICTED_MANEUVERABILITY
  else if n = 4 then .CONSTRAINED_BY_DRAFT
  else if n = 5 then .MOORED
  else if n = 6 then .AGROUND
  else if n = 7 then .FISHING
  else if n = 8 then .UNDER_WAY_SAILING
  else if n = 15 then .NOT_DEFINED
  else .NOT_DEFINED

/-- Raw AISHub message: the keys AISHubCollector.parse_message reads
(ais_collectors.py lines 195-249).  Missing key = none. -/
structure AISHubMsg where
  MMSI : Option ℤ
  LATITUDE : Option ℚ
  LONGITUDE : Option ℚ
  TIMESTAMP : Option Timestamp
  COG : Option ℚ
  SOG : Option ℚ
  HEADING : Option ℚ
  DESTINATION : Option String
  ETA : Option Timestamp
  deriving DecidableEq, Repr

/-- AISHubCollector.parse_message (ais_collectors.py lines 195-249).
The now argument stands for datetime.utcnow(). -/
def AISHubCollector.parse_message (now : Timestamp) (m : AISHubMsg) :
    Option VesselPositionCreate :=
  match m.MMSI with
  | none => none
  | some mmsi =>
    if mmsi = 0 then none
    else
      let latitude := m.LATITUDE.getD 0
      let longitude := m.LONGITUDE.getD 0
      if (-90 ≤ latitude ∧ latitude ≤ 90) ∧ (-180 ≤ longitude ∧ longitude ≤ 180) then
        let timestamp := m.TIMESTAMP.getD now
        let destination := (m.DESTINATION.getD "").trim
        VesselPositionCreate.make mmsi latitude longitude
          (pyTruthyFloat m.COG) (pyTruthyFloat m.SOG) (pyTruthyFloat m.HEADING)
          none
          (if destination = "" then none else some destination)
          m.ETA timestamp timestamp "aishub" none
      else none

/-- The nested Message payload of an AISStream frame: the keys
AISStreamCollector.parse_message reads (ais_collectors.py lines 307-376). -/
structure AISStreamMessageData where
  UserID : Option ℤ
  Latitude : Option ℚ
  Longitude : Option ℚ
  CourseOverGround : Option ℚ
  SpeedOverGround : Option ℚ
  TrueHeading : Option ℚ
  NavigationalStatus : Option ℤ
  deriving DecidableEq, Repr

/-- Raw AISStream frame: the Message payload (a missing or empty dict is
falsy, modelled as none) and the MetaData time_utc field. -/
structure AISStreamMsg where
  Message : Option AISStreamMessageData
  MetaData_time_utc : Option Timestamp
  deriving DecidableEq, Repr

/-- json.dumps of the raw frame, stored in raw_message; modelled by the
derived Repr printer (the claims only need that it is a function of the
whole frame). -/
def AISStreamMsg.dumps (m : AISStreamMsg) : String :=
  reprStr m

/-- AISStreamCollector.parse_message (ais_collectors.py lines 307-376). -/
def AISStreamCollector.parse_message (now : Timestamp) (m : AISStreamMsg) :
    Option VesselPositionCreate :=
  match m.Message with
  | none => none
  | some md =>
    match md.UserID with
    | none => none
    | some mmsi =>
      if mmsi = 0 then none
      else
        match md.Latitude, md.Longitude with
        | some latitude, some longitude =>
          if (-90 ≤ latitude ∧ latitude ≤ 90) ∧ (-180 ≤ longitude ∧ longitude ≤ 180) then
            let timestamp := m.MetaData_time_utc.getD now
            VesselPositionCreate.make mmsi latitude longitude
              md.CourseOverGround md.SpeedOverGround
              (if md.TrueHeading = some 511 then none else md.TrueHeading)
              (Option.map statusMap md.NavigationalStatus)
              none none timestamp timestamp "aisstream" (some m.dumps)
          else none
        | _, _ => none

/-- Raw MarinePlan message: the keys MarinePlanCollector.parse_message
reads (ais_collectors.py lines 432-489).  A missing position dict makes
both coordinate lookups none. -/
structure MarinePlanMsg where
  mmsi : Option ℤ
  position_latitude : Option ℚ
  position_longitude : Option ℚ
  timestamp : Option Timestamp
  course : Option ℚ
  speed : Option ℚ
  heading : Option ℚ
  destination : Option String
  eta : Option Timestamp
  deriving DecidableEq, Repr

/-- MarinePlanCollector.parse_message (ais_collectors.py lines 432-489). -/
def MarinePlanCollector.parse_message (now : Timestamp) (m : MarinePlanMsg) :
    Option VesselPositionCreate :=
  match m.mmsi with
  | none => none
  | some mmsi =>
    if mmsi = 0 then none
    else
      match m.position_latitude, m.position_longitude with
      | some latitude, some longitude =>
        if (-90 ≤ latitude ∧ latitude ≤ 90) ∧ (-180 ≤ longitude ∧ longitude ≤ 180) then
          let timestamp := m.timestamp.getD now
          let destination := (m.destination.getD "").trim
          VesselPositionCreate.make mmsi latitude longitude
            m.course m.speed m.heading
            none
            (if destination = "" then none else some destination)
            m.eta timestamp timestamp "marineplan" none
        else none
      | _, _ => none

/-- Raw Digitraffic GeoJSON feature: the geometry coordinates array and
the properties keys DigitalTrafficCollector.parse_message reads
(ais_collectors.py lines 529-596). -/
structure DigiTrafficMsg where
  geometry_coordinates : List ℚ
  properties_mmsi : Option ℤ
  properties_timestampExternal : Option Timestamp
  properties_cog : Option ℚ
  properties_sog : Option ℚ
  properties_heading : Option ℚ
  properties_navStat : Option ℤ
  deriving DecidableEq, Repr

/-- DigitalTrafficCollector.parse_message (ais_collectors.py lines
529-596).  Coordinates are read as coordinates[0] = longitude,
coordinates[1] = latitude after the length check. -/
def DigitalTrafficCollector.parse_message (now : Timestamp) (m : DigiTrafficMsg) :
    Option VesselPositionCreate :=
  match m.properties_mmsi with
  | none => none
  | some mmsi =>
    if mmsi = 0 then none
    else
      match m.geometry_coordinates with
      | longitude :: latitude :: _ =>
        if (-90 ≤ latitude ∧ latitude ≤ 90) ∧ (-180 ≤ longitude ∧ longitude ≤ 180) then
          let timestamp := m.properties_timestampExternal.getD now
          VesselPositionCreate.make mmsi latitude longitude
            m.properties_cog m.properties_sog
            (if m.properties_heading = some 511 then none
             else m.properties_heading)
            (Option.map statusMap m.properties_navStat)
            none none timestamp timestamp "digitraffic" none
        else none
      | _ => none

/-- SQLAlchemy VesselPosition (vessel.py lines 97-138) as constructed by
AISCollector.parse_myshiptracking_vessel; only the fields that parser
passes are modelled.  SQLAlchemy performs no value validation.  (In the
source the keyword names speed and course do not match any column of the
declarative model, so the construction would raise TypeError at runtime;
the theorems below only use the rejection direction, which holds either
way.) -/
structure VesselPosition where
  latitude : ℚ
  longitude : ℚ
  timestamp : Timestamp
  speed : ℚ
  course : ℚ
  deriving DecidableEq, Repr

/-- SQLAlchemy Vessel (vessel.py lines 58-94) as constructed by
AISCollector.parse_myshiptracking_vessel; only the fields the claims
touch are modelled. -/
structure Vessel where
  mmsi : String
  current_position : VesselPosition
  data_source : String
  deriving DecidableEq, Repr

/-- Raw MyShipTracking vessel payload: the keys
AISCollector.parse_myshiptracking_vessel reads that the claims touch
(ais_collectors.py lines 783-848). -/
structure MSTVesselData where
  mmsi : Option ℤ
  lat : Option ℚ
  lng : Option ℚ
  received : Option Timestamp
  speed : Option ℚ
  course : Option ℚ
  deriving DecidableEq, Repr

/-- AISCollector parse of one MyShipTracking vessel, source name
AISCollector._parse_myshiptracking_vessel (ais_collectors.py lines
783-848).  lat and lng default to 0.0 when missing; a vessel whose lat
and lng are both 0 is skipped.  A missing received field makes
datetime.fromisoformat raise on the empty string, so the except branch
returns None. -/
def AISCollector.parse_myshiptracking_vessel (v : MSTVesselData) :
    Option Vessel :=
  let lat := v.lat.getD 0
  let lng := v.lng.getD 0
  if lat = 0 ∧ lng = 0 then none
  else
    match v.received with
    | none => none
    | some received =>
      some { mmsi := match v.mmsi with
                     | some mm => if mm = 0 then "" else toString mm
                     | none => ""
             current_position :=
               { latitude := lat, longitude := lng, timestamp := received,
                 speed := v.speed.getD 0, course := v.course.getD 0 }
             data_source := "myshiptracking" }

/-- State of the rate limiter: the wall clock (time.time()) and the
adapter field last_request_time.  time.sleep advances the clock; nothing
else in the model does. -/
structure RLState where
  now : ℚ
  last_request_time : ℚ
  deriving DecidableEq, Repr

/-- The configuration lookup of BaseAISCollector.__init__
(base_collector.py line 49): AIS_SOURCES.get(source_name,
dict()).get(key, 60) — an unset rate_limit defaults to 60. -/
def configuredRateLimit (cfg : Option ℚ) : ℚ :=
  cfg.getD 60

/-- min_request_interval (base_collector.py line 50):
60.0 / rate_limit if rate_limit else 0 — a rate_limit of 0 is falsy. -/
def min_request_interval (rate_limit : ℚ) : ℚ :=
  if rate_limit ≠ 0 then 60 / rate_limit else 0

/-- BaseAISCollector._enforce_rate_limit (base_collector.py lines 65-72),
source name with a leading underscore.  Sleeps until min_interval has
elapsed since last_request_time, then stores the current clock in
last_request_time. -/
def BaseAISCollector.enforce_rate_limit (min_interval : ℚ) (s : RLState) :
    RLState :=
  if 0 < min_interval then
    let time_since_last := s.now - s.last_request_time
    if time_since_last < min_interval then
      let now2 := s.now + (min_interval - time_since_last)
      { now := now2, last_request_time := now2 }
    else
      { now := s.now, last_request_time := s.now }
  else
    { now := s.now, last_request_time := s.now }

/-- Mutable per-adapter state of BaseAISCollector plus the list of
records handed to _publish_to_kafka, recorded for observability. -/
structure AdapterState where
  is_running : Bool
  request_count : ℕ
  error_count : ℕ
  published : List VesselPositionCreate
  deriving DecidableEq, Repr

/-- One message through the body of the collection loop of
BaseAISCollector.start_collection (base_collector.py lines 107-118):
a successful parse is published and counted in request_count, a failed
parse is counted in error_count and the loop continues. -/
def processMessage {M : Type} (parse : M → Option VesselPositionCreate)
    (st : AdapterState) (m : M) : AdapterState :=
  match parse m with
  | some r => { st with request_count := st.request_count + 1,
                        published := st.published ++ [r] }
  | none => { st with error_count := st.error_count + 1 }

/-- One HTTP response of the AISHub polling loop. -/
structure AISHubResponse where
  status : ℤ
  body : List AISHubMsg
  deriving DecidableEq, Repr

/-- One iteration of the while loop of AISHubCollector.collect_data
(ais_collectors.py lines 148-189): on status 200 the vessel array of the
body is yielded; on any other status nothing is yielded and
asyncio.sleep(60) advances the clock, so the next outbound request
cannot start before t + 60.  Returns the yielded messages and the clock
at the end of the iteration. -/
def AISHubCollector.collect_iteration (resp : AISHubResponse) (t : ℚ) :
    List AISHubMsg × ℚ :=
  if resp.status = 200 then (resp.body, t) else ([], t + 60)

/-- One collect_data iteration composed with the per-message processing
of start_collection: the adapter state after the iteration and the clock
before the next outbound request. -/
def AISHubCollector.poll_cycle (now : Timestamp) (resp : AISHubResponse)
    (st : AdapterState) (t : ℚ) : AdapterState × ℚ :=
  let step := AISHubCollector.collect_iteration resp t
  (step.1.foldl (processMessage (AISHubCollector.parse_message now)) st, step.2)

/-- The collection loop of BaseAISCollector.start_collection
(base_collector.py lines 103-118).  Each event carries the next yielded
raw message together with whether stop_collection was called before this
iteration checks the flag; the loop breaks as soon as is_running is
false. -/
def BaseAISCollector.run_loop {M : Type}
    (parse : M → Option VesselPositionCreate) :
    AdapterState → List (M × Bool) → AdapterState
  | st, [] => st
  | st, (m, stopRequested) :: rest =>
    let st1 := if stopRequested then { st with is_running := false } else st
    if st1.is_running then
      BaseAISCollector.run_loop parse (processMessage parse st1 m) rest
    else st1

/-- BaseAISCollector.start_collection (base_collector.py lines 97-124):
sets is_running, runs the collection loop inside a try block; raised
models the except branch (an uncaught exception ended the loop, which
increments error_count); the finally block clears is_running in every
case. -/
def BaseAISCollector.start_collection {M : Type}
    (parse : M → Option VesselPositionCreate) (st : AdapterState)
    (events : List (M × Bool)) (raised : Bool) : AdapterState :=
  let st1 := BaseAISCollector.run_loop parse { st with is_running := true } events
  let st2 := if raised then { st1 with error_count := st1.error_count + 1 } else st1
  { st2 with is_running := false }

/-- One task managed by AISCollectorManager: the is_running flag of its
collector and the time its run loop still needs to exit after
stop_collection has cleared the flag; none models a stuck task that
never exits. -/
structure ManagedTask where
  is_running : Bool
  remaining : Option ℚ
  deriving DecidableEq, Repr

/-- Time asyncio.wait_for(task, timeout=30) spends on one task
(ais_collectors.py line 633): the task finishing time, capped at the 30
second timeout after which the task is cancelled. -/
def stop_wait : Option ℚ → ℚ
  | some t => min t 30
  | none => 30

/-- AISCollectorManager.stop_all (ais_collectors.py lines 621-639):
first calls stop_collection on every collector, clearing every
is_running flag, then awaits the tasks one after the other, each with a
30 second timeout.  Returns the collectors and the total elapsed time of
the sequential waits. -/
def AISCollectorManager.stop_all (collectors : List ManagedTask) :
    List ManagedTask × ℚ :=
  (collectors.map fun c => { c with is_running := false },
   (collectors.map fun c => stop_wait c.remaining).sum)

/-- List of the navigation-status codes present in the status_map
dictionaries of ais_collectors.py (lines 346-357 and 567-578). -/
def navStatusCodes : List ℤ := [0, 1, 2, 3, 4, 5, 6, 7, 8, 15]

/-- Record with the raw_message field cleared, to compare parse results
up to the serialized copy of the raw frame. -/
def VesselPositionCreate.stripRaw (r : VesselPositionCreate) : VesselPositionCreate :=
  { r with raw_message := none }

/-- Replace the TrueHeading field inside the Message payload of an
AISStream frame. -/
def AISStreamMsg.withHeading (m : AISStreamMsg) (h : Option ℚ) : AISStreamMsg :=
  { m with Message := Option.map (fun md => { md with TrueHeading := h }) m.Message }

/-- The three optional navigation fields pass the pydantic bounds of
VesselPositionCreate. -/
def navFieldsOk (cog sog hdg : Option ℚ) : Bool :=
  headingFieldOk cog && speedFieldOk sog && headingFieldOk hdg

/-- A present course, speed or heading value violates the canonical
bounds of VesselPositionCreate (course outside [0,360), negative speed,
heading outside [0,360) other than the 511 sentinel). -/
def ViolatesNav (cog sog hdg : Option ℚ) : Prop :=
  (∃ c ∈ cog, c < 0 ∨ 360 ≤ c) ∨ (∃ s ∈ sog, s < 0) ∨
    (∃ h ∈ hdg, (h < 0 ∨ 360 ≤ h) ∧ h ≠ 511)

theorem headingFieldOk_some_iff {c : ℚ} :
    headingFieldOk (some c) = true ↔ (0 ≤ c ∧ c < 360) := by
  simp [headingFieldOk, Option.all]

theorem speedFieldOk_some_iff {s : ℚ} :
    speedFieldOk (some s) = true ↔ 0 ≤ s := by
  simp [speedFieldOk, Option.all]

theorem coordFieldOk_iff {lat lon : ℚ} :
    coordFieldOk lat lon = true ↔
      ((-90 ≤ lat ∧ lat ≤ 90) ∧ (-180 ≤ lon ∧ lon ≤ 180)) := by
  simp [coordFieldOk]
  tauto

theorem VesselPositionCreate.make_none_of_bad_cog {mmsi : ℤ} {lat lon : ℚ}
    {c : ℚ} {sog hdg : Option ℚ} {ns : Option NavigationStatus}
    {dest : Option String} {eta : Option Timestamp} {ts msgts : Timestamp}
    {src : String} {raw : Option String} (hbad : ¬ (0 ≤ c ∧ c < 360)) :
    VesselPositionCreate.make mmsi lat lon (some c) sog hdg ns dest eta ts msgts src raw = none := by
  have hh : headingFieldOk (some c) = false :=
    Bool.eq_false_iff.mpr fun h => hbad (headingFieldOk_some_iff.mp h)
  simp [VesselPositionCreate.make, hh]

theorem VesselPositionCreate.make_none_of_bad_sog {mmsi : ℤ} {lat lon : ℚ}
    {cog : Option ℚ} {s : ℚ} {hdg : Option ℚ} {ns : Option NavigationStatus}
    {dest : Option String} {eta : Option Timestamp} {ts msgts : Timestamp}
    {src : String} {raw : Option String} (hbad : ¬ 0 ≤ s) :
    VesselPositionCreate.make mmsi lat lon cog (some s) hdg ns dest eta ts msgts src raw = none := by
  have hh : speedFieldOk (some s) = false :=
    Bool.eq_false_iff.mpr fun h => hbad (speedFieldOk_some_iff.mp h)
  simp [VesselPositionCreate.make, hh]

theorem VesselPositionCreate.make_none_of_bad_hdg {mmsi : ℤ} {lat lon : ℚ}
    {cog sog : Option ℚ} {h : ℚ} {ns : Option NavigationStatus}
    {dest : Option String} {eta : Option Timestamp} {ts msgts : Timestamp}
    {src : String} {raw : Option String} (hbad : ¬ (0 ≤ h ∧ h < 360)) :
    VesselPositionCreate.make mmsi lat lon cog sog (some h) ns dest eta ts msgts src raw = none := by
  have hh : headingFieldOk (some h) = false :=
    Bool.eq_false_iff.mpr fun hx => hbad (headingFieldOk_some_iff.mp hx)
  simp [VesselPositionCreate.make, hh]

theorem VesselPositionCreate.make_eq_some {mmsi : ℤ} {lat lon : ℚ}
    {cog sog hdg : Option ℚ} {ns : Option NavigationStatus}
    {dest : Option String} {eta : Option Timestamp} {ts msgts : Timestamp}
    {src : String} {raw : Option String} {r : VesselPositionCreate}
    (h : VesselPositionCreate.make mmsi lat lon cog sog hdg ns dest eta ts msgts src raw = some r) :
    r = ⟨mmsi, lat, lon, cog, sog, hdg, ns, dest, eta, ts, msgts, src, raw⟩ := by
  unfold VesselPositionCreate.make at h
  split at h
  · exact (Option.some_inj.mp h).symm
  · exact absurd h (by simp)

theorem VesselPositionCreate.make_some_of_ok {mmsi : ℤ} {lat lon : ℚ}
    {cog sog hdg : Option ℚ} {ns : Option NavigationStatus}
    {dest : Option String} {eta : Option Timestamp} {ts msgts : Timestamp}
    {src : String} {raw : Option String}
    (h1 : coordFieldOk lat lon = true) (h2 : headingFieldOk cog = true)
    (h3 : speedFieldOk sog = true) (h4 : headingFieldOk hdg = true) :
    VesselPositionCreate.make mmsi lat lon cog sog hdg ns dest eta ts msgts src raw
      = some ⟨mmsi, lat, lon, cog, sog, hdg, ns, dest, eta, ts, msgts, src, raw⟩ := by
  simp [VesselPositionCreate.make, h1, h2, h3, h4]

/-- C10: whenever a collection run of BaseAISCollector.start_collection
terminates — by observing a stop request, by the source sequence ending,
or by an uncaught exception inside the run loop — the is_running flag of
the adapter is false afterward: the finally block of start_collection
clears it on every termination path. -/
theorem start_collection_clears_running_flag {M : Type}
    (parse : M → Option VesselPositionCreate) (st : AdapterState)
    (events : List (M × Bool)) (raised : Bool) :
    (BaseAISCollector.start_collection parse st events raised).is_running = false := by
  unfold BaseAISCollector.start_collection
  cases raised <;> simp

/-- C3, counterexample: stop_all does not return within the per-adapter
timeout of 30 seconds plus a small constant regardless of the number of
registered adapters: it awaits the adapters sequentially, so three stuck
adapters already cost 90 seconds, more than twice the timeout, and the
total grows linearly with the number of adapters. -/
theorem stop_all_time_grows_with_adapters :
    (AISCollectorManager.stop_all
      (List.replicate 3 { is_running := true, remaining := none })).2 = 90 ∧
    ¬ ((90 : ℚ) ≤ 30 + 30) := by
  constructor
  · norm_num [AISCollectorManager.stop_all, List.replicate, stop_wait]
  · norm_num

/-- C3, amended: stop_all takes no timeout parameter; it clears every
is_running flag via stop_collection and then awaits the adapter tasks
sequentially with a fixed 30 second timeout each, so it returns within
30 times the number of registered adapters even when every adapter is
stuck, and afterwards every registered adapter has is_running = false. -/
theorem stop_all_bounded_shutdown (collectors : List ManagedTask) :
    (∀ c ∈ (AISCollectorManager.stop_all collectors).1, c.is_running = false)
    ∧ (AISCollectorManager.stop_all collectors).2
        ≤ 30 * (collectors.length : ℚ) := by
  constructor
  · intro c hc
    simp only [AISCollectorManager.stop_all, List.mem_map] at hc
    obtain ⟨d, _, rfl⟩ := hc
    rfl
  · simp only [AISCollectorManager.stop_all]
    induction collectors with
    | nil => simp
    | cons a l ih =>
      have h1 : stop_wait a.remaining ≤ 30 := by
        cases a.remaining with
        | none => simp [stop_wait]
        | some t => simp [stop_wait]
      simp only [List.map_cons, List.sum_cons, List.length_cons]
      push_cast
      linarith

/-- C3, witness for the amended theorem: a two-adapter manager with one
stuck adapter and one that needs 5 seconds; stop_all clears the flags
and the sequential waits stay within 2 times 30 seconds. -/
theorem stop_all_bounded_shutdown_witness :
    ({ is_running := false, remaining := none } : ManagedTask) ∈
      (AISCollectorManager.stop_all
        [{ is_running := true, remaining := none },
         { is_running := true, remaining := some 5 }]).1
    ∧ ({ is_running := false, remaining := none } : ManagedTask).is_running = false
    ∧ (AISCollectorManager.stop_all
        [{ is_running := true, remaining := none },
         { is_running := true, remaining := some 5 }]).2
        ≤ 30 * (([{ is_running := true, remaining := none },
                   { is_running := true, remaining := some 5 }] : List ManagedTask).length : ℚ) := by
  refine ⟨by simp [AISCollectorManager.stop_all], ?_, ?_⟩
  · exact (stop_all_bounded_shutdown
      [{ is_running := true, remaining := none },
       { is_running := true, remaining := some 5 }]).1
      { is_running := false, remaining := none }
      (by simp [AISCollectorManager.stop_all])
  · exact (stop_all_bounded_shutdown _).2

/-- C5: the navigation-status codes 0,1,2,3,4,5,6,7,8,15 map under the
status_map lookup of the AISStream and Digitraffic parsers exactly as
listed, injectively on that code set (hence bijectively onto the ten
listed enumeration members), and every other integer code maps to
NOT_DEFINED. -/
theorem navigation_status_mapping :
    (statusMap 0 = .UNDER_WAY_USING_ENGINE ∧ statusMap 1 = .AT_ANCHOR ∧
     statusMap 2 = .NOT_UNDER_COMMAND ∧ statusMap 3 = .RESTRICTED_MANEUVERABILITY ∧
     statusMap 4 = .CONSTRAINED_BY_DRAFT ∧ statusMap 5 = .MOORED ∧
     statusMap 6 = .AGROUND ∧ statusMap 7 = .FISHING ∧
     statusMap 8 = .UNDER_WAY_SAILING ∧ statusMap 15 = .NOT_DEFINED)
    ∧ (∀ a ∈ navStatusCodes, ∀ b ∈ navStatusCodes, statusMap a = statusMap b → a = b)
    ∧ (∀ n : ℤ, n ∉ navStatusCodes → statusMap n = .NOT_DEFINED) := by
  refine ⟨by decide, by decide, ?_⟩
  intro n hn
  simp only [navStatusCodes, List.mem_cons, List.not_mem_nil, or_false, not_or] at hn
  obtain ⟨h0, h1, h2, h3, h4, h5, h6, h7, h8, h15⟩ := hn
  simp [statusMap, h0, h1, h2, h3, h4, h5, h6, h7, h8, h15]

/-- C5, witness: code 9 is outside the mapped code set and maps to
NOT_DEFINED. -/
theorem navigation_status_mapping_witness :
    (9 : ℤ) ∉ navStatusCodes ∧ statusMap 9 = .NOT_DEFINED :=
  ⟨by decide, navigation_status_mapping.2.2 9 (by decide)⟩

/-- C6: the GeoJSON parser reads geometry.coordinates in
[longitude, latitude] order; the feature with coordinates [56.25, 26.57]
and properties mmsi 123456789, sog 12.3, cog 45, navStat 0 parses to a
record with longitude 56.25, latitude 26.57, speed_over_ground 12.3,
course_over_ground 45 and navigation_status UNDER_WAY_USING_ENGINE. -/
theorem geojson_scenario :
    (DigitalTrafficCollector.parse_message 0
      { geometry_coordinates := [56.25, 26.57],
        properties_mmsi := some 123456789,
        properties_timestampExternal := none,
        properties_cog := some 45,
        properties_sog := some 12.3,
        properties_heading := none,
        properties_navStat := some 0 }).map
      (fun r => (r.longitude, r.latitude, r.speed_over_ground,
                 r.course_over_ground, r.navigation_status))
      = some (56.25, 26.57, some 12.3, some 45,
              some NavigationStatus.UNDER_WAY_USING_ENGINE) := by
  norm_num [DigitalTrafficCollector.parse_message, VesselPositionCreate.make,
    coordFieldOk, headingFieldOk, speedFieldOk, statusMap, Option.all]

/-- C8: a polling-HTTP iteration of the AISHub collector whose response
has a non-200 status publishes no record, leaves error_count (and the
whole adapter state) unchanged, and ends only after a 60 second cooldown,
so the next outbound request starts no earlier than 60 seconds later. -/
theorem non200_no_publish_no_error_cooldown (now : Timestamp)
    (resp : AISHubResponse) (st : AdapterState) (t : ℚ)
    (h : resp.status ≠ 200) :
    (AISHubCollector.poll_cycle now resp st t).1.published = st.published
    ∧ (AISHubCollector.poll_cycle now resp st t).1.error_count = st.error_count
    ∧ (AISHubCollector.poll_cycle now resp st t).1 = st
    ∧ (AISHubCollector.poll_cycle now resp st t).2 = t + 60 := by
  simp [AISHubCollector.poll_cycle, AISHubCollector.collect_iteration, h]

/-- C8, witness: a 503 response with a nonempty body leaves a fresh
adapter state untouched and sets the next request time to t + 60. -/
theorem non200_no_publish_no_error_cooldown_witness :
    ((AISHubCollector.poll_cycle 0
        { status := 503,
          body := [{ MMSI := some 123456789, LATITUDE := some 10,
                     LONGITUDE := some 20, TIMESTAMP := none, COG := none,
                     SOG := none, HEADING := none, DESTINATION := none,
                     ETA := none }] }
        { is_running := true, request_count := 0, error_count := 0,
          published := [] } 100).1.published = [])
    ∧ ((AISHubCollector.poll_cycle 0
        { status := 503,
          body := [{ MMSI := some 123456789, LATITUDE := some 10,
                     LONGITUDE := some 20, TIMESTAMP := none, COG := none,
                     SOG := none, HEADING := none, DESTINATION := none,
                     ETA := none }] }
        { is_running := true, request_count := 0, error_count := 0,
          published := [] } 100).1.error_count = 0)
    ∧ ((AISHubCollector.poll_cycle 0
        { status := 503,
          body := [{ MMSI := some 123456789, LATITUDE := some 10,
                     LONGITUDE := some 20, TIMESTAMP := none, COG := none,
                     SOG := none, HEADING := none, DESTINATION := none,
                     ETA := none }] }
        { is_running := true, request_count := 0, error_count := 0,
          published := [] } 100).2 = 160) := by
  have h := non200_no_publish_no_error_cooldown 0
    { status := 503,
      body := [{ MMSI := some 123456789, LATITUDE := some 10,
                 LONGITUDE := some 20, TIMESTAMP := none, COG := none,
                 SOG := none, HEADING := none, DESTINATION := none,
                 ETA := none }] }
    { is_running := true, request_count := 0, error_count := 0,
      published := [] } 100 (by decide)
  exact ⟨h.1, h.2.1, by rw [h.2.2.2]; norm_num⟩

/-- C7, counterexample: an unset rate_limit is not a no-op.  The
configuration lookup defaults an unset rate_limit to 60 requests per
minute, giving a one-second minimum interval, and a second back-to-back
call then sleeps: the clock advances from 0 to 1 instead of staying
put. -/
theorem rate_limit_unset_not_noop :
    configuredRateLimit none = 60 ∧
    min_request_interval (configuredRateLimit none) = 1 ∧
    (BaseAISCollector.enforce_rate_limit
      (min_request_interval (configuredRateLimit none))
      { now := 0, last_request_time := 0 }).now = 1 := by
  norm_num [configuredRateLimit, min_request_interval,
    BaseAISCollector.enforce_rate_limit]

/-- C7, amended: for a positive rate_limit, a call to the rate-limit
wait that starts d seconds after the previous call completed (the
previous call left last_request_time equal to its completion time t)
completes no earlier than t + 60/rate_limit, so at least
60/rate_limit seconds elapse between the completions of consecutive
calls; the wait is a no-op (no time passes) when rate_limit is zero,
while an unset rate_limit defaults to 60 per minute; and every call
stores the current clock in last_request_time as a side effect. -/
theorem rate_limiter_spacing :
    (∀ rate_limit d t : ℚ, 0 < rate_limit → 0 ≤ d →
      60 / rate_limit ≤
        (BaseAISCollector.enforce_rate_limit (min_request_interval rate_limit)
          { now := t + d, last_request_time := t }).now - t)
    ∧ (∀ s : RLState,
        (BaseAISCollector.enforce_rate_limit (min_request_interval 0) s).now = s.now)
    ∧ (∀ i : ℚ, ∀ s : RLState,
        (BaseAISCollector.enforce_rate_limit i s).last_request_time
          = (BaseAISCollector.enforce_rate_limit i s).now) := by
  refine ⟨?_, ?_, ?_⟩
  · intro r d t hr hd
    have hne : r ≠ 0 := ne_of_gt hr
    have hpos : 0 < 60 / r := by positivity
    have hint : min_request_interval r = 60 / r := by
      simp [min_request_interval, hne]
    rw [hint]
    simp only [BaseAISCollector.enforce_rate_limit]
    rw [if_pos hpos]
    split_ifs with hc <;> simp <;> linarith
  · intro s
    simp [BaseAISCollector.enforce_rate_limit, min_request_interval]
  · intro i s
    simp only [BaseAISCollector.enforce_rate_limit]
    split_ifs <;> rfl

/-- C7, witness for the amended theorem: rate_limit 60 (one request per
second) with the second call issued immediately: its completion is at
least one second after the previous completion. -/
theorem rate_limiter_spacing_witness :
    (0 : ℚ) < 60 ∧ (0 : ℚ) ≤ 0 ∧
    (60 : ℚ) / 60 ≤
      (BaseAISCollector.enforce_rate_limit (min_request_interval 60)
        { now := 0 + 0, last_request_time := 0 }).now - 0 :=
  ⟨by norm_num, le_rfl, rate_limiter_spacing.1 60 0 0 (by norm_num) le_rfl⟩

theorem pyTruthyFloat_of_violating {c : ℚ} (h : c < 0 ∨ 360 ≤ c) :
    pyTruthyFloat (some c) = some c := by
  have hne : c ≠ 0 := by
    intro h0
    rw [h0] at h
    rcases h with h | h <;> norm_num at h
  simp [pyTruthyFloat, hne]

theorem not_heading_bound_of_violating {c : ℚ} (h : c < 0 ∨ 360 ≤ c) :
    ¬ (0 ≤ c ∧ c < 360) := by
  rcases h with h | h <;> intro hc <;> linarith [hc.1, hc.2]

/-- C9: for every parser producing the canonical record, a raw message
whose numeric navigation fields violate the canonical bounds (negative
speed_over_ground, course_over_ground outside [0,360), or true_heading
outside [0,360) other than the 511 sentinel) makes the whole record be
rejected: the pydantic validation of VesselPositionCreate fails, the
exception is caught, and parse returns None — the offending value is
never clamped or silently omitted. -/
theorem invalid_nav_fields_reject_record :
    (∀ (now : Timestamp) (m : AISHubMsg), ViolatesNav m.COG m.SOG m.HEADING →
        AISHubCollector.parse_message now m = none)
    ∧ (∀ (now : Timestamp) (m : AISStreamMsg) (md : AISStreamMessageData),
        m.Message = some md →
        ViolatesNav md.CourseOverGround md.SpeedOverGround md.TrueHeading →
        AISStreamCollector.parse_message now m = none)
    ∧ (∀ (now : Timestamp) (m : MarinePlanMsg),
        ViolatesNav m.course m.speed m.heading →
        MarinePlanCollector.parse_message now m = none)
    ∧ (∀ (now : Timestamp) (m : DigiTrafficMsg),
        ViolatesNav m.properties_cog m.properties_sog m.properties_heading →
        DigitalTrafficCollector.parse_message now m = none) := by
  refine ⟨?_, ?_, ?_, ?_⟩
  · intro now m hv
    simp only [AISHubCollector.parse_message]
    cases hM : m.MMSI with
    | none => rfl
    | some mm =>
      simp only
      by_cases h0 : mm = 0
      · rw [if_pos h0]
      · rw [if_neg h0]
        rcases hv with ⟨c, hc, hcb⟩ | ⟨s, hs, hsb⟩ | ⟨h, hh, hhb, _⟩
        · rw [Option.mem_def] at hc
          rw [hc, pyTruthyFloat_of_violating hcb]
          split_ifs <;>
            first
            | rfl
            | exact VesselPositionCreate.make_none_of_bad_cog
                (not_heading_bound_of_violating hcb)
        · rw [Option.mem_def] at hs
          rw [hs, pyTruthyFloat_of_violating (Or.inl hsb)]
          split_ifs <;>
            first
            | rfl
            | exact VesselPositionCreate.make_none_of_bad_sog (not_le.mpr hsb)
        · rw [Option.mem_def] at hh
          rw [hh, pyTruthyFloat_of_violating hhb]
          split_ifs <;>
            first
            | rfl
            | exact VesselPositionCreate.make_none_of_bad_hdg
                (not_heading_bound_of_violating hhb)
  · intro now m md hmd hv
    simp only [AISStreamCollector.parse_message, hmd]
    cases hU : md.UserID with
    | none => rfl
    | some mm =>
      simp only
      by_cases h0 : mm = 0
      · rw [if_pos h0]
      · rw [if_neg h0]
        cases hLat : md.Latitude with
        | none => rfl
        | some lat =>
          cases hLon : md.Longitude with
          | none => rfl
          | some lon =>
            simp only
            rcases hv with ⟨c, hc, hcb⟩ | ⟨s, hs, hsb⟩ | ⟨h, hh, hhb, hh511⟩
            · rw [Option.mem_def] at hc
              rw [hc]
              split_ifs <;>
                first
                | rfl
                | exact VesselPositionCreate.make_none_of_bad_cog
                    (not_heading_bound_of_violating hcb)
            · rw [Option.mem_def] at hs
              rw [hs]
              split_ifs <;>
                first
                | rfl
                | exact VesselPositionCreate.make_none_of_bad_sog (not_le.mpr hsb)
            · rw [Option.mem_def] at hh
              rw [hh, if_neg (show ¬ (some h = some 511) by simp [hh511])]
              split_ifs <;>
                first
                | rfl
                | exact VesselPositionCreate.make_none_of_bad_hdg
                    (not_heading_bound_of_violating hhb)
  · intro now m hv
    simp only [MarinePlanCollector.parse_message]
    cases hM : m.mmsi with
    | none => rfl
    | some mm =>
      simp only
      by_cases h0 : mm = 0
      · rw [if_pos h0]
      · rw [if_neg h0]
        cases hLat : m.position_latitude with
        | none => rfl
        | some lat =>
          cases hLon : m.position_longitude with
          | none => rfl
          | some lon =>
            simp only
            rcases hv with ⟨c, hc, hcb⟩ | ⟨s, hs, hsb⟩ | ⟨h, hh, hhb, _⟩
            · rw [Option.mem_def] at hc
              rw [hc]
              split_ifs <;>
                first
                | rfl
                | exact VesselPositionCreate.make_none_of_bad_cog
                    (not_heading_bound_of_violating hcb)
            · rw [Option.mem_def] at hs
              rw [hs]
              split_ifs <;>
                first
                | rfl
                | exact VesselPositionCreate.make_none_of_bad_sog (not_le.mpr hsb)
            · rw [Option.mem_def] at hh
              rw [hh]
              split_ifs <;>
                first
                | rfl
                | exact VesselPositionCreate.make_none_of_bad_hdg
                    (not_heading_bound_of_violating hhb)
  · intro now m hv
    simp only [DigitalTrafficCollector.parse_message]
    cases hM : m.properties_mmsi with
    | none => rfl
    | some mm =>
      simp only
      by_cases h0 : mm = 0
      · rw [if_pos h0]
      · rw [if_neg h0]
        cases hC : m.geometry_coordinates with
        | nil => rfl
        | cons lon rest =>
          cases rest with
          | nil => rfl
          | cons lat rest2 =>
            simp only
            rcases hv with ⟨c, hc, hcb⟩ | ⟨s, hs, hsb⟩ | ⟨h, hh, hhb, hh511⟩
            · rw [Option.mem_def] at hc
              rw [hc]
              split_ifs <;>
                first
                | rfl
                | exact VesselPositionCreate.make_none_of_bad_cog
                    (not_heading_bound_of_violating hcb)
            · rw [Option.mem_def] at hs
              rw [hs]
              split_ifs <;>
                first
                | rfl
                | exact VesselPositionCreate.make_none_of_bad_sog (not_le.mpr hsb)
            · rw [Option.mem_def] at hh
              rw [hh, if_neg (show ¬ (some h = some 511) by simp [hh511])]
              split_ifs <;>
                first
                | rfl
                | exact VesselPositionCreate.make_none_of_bad_hdg
                    (not_heading_bound_of_violating hhb)

/-- C9, witness: an AISHub message with valid coordinates and a negative
speed is rejected whole. -/
theorem invalid_nav_fields_reject_record_witness :
    ViolatesNav (none : Option ℚ) (some (-1)) (none : Option ℚ) ∧
    AISHubCollector.parse_message 0
      { MMSI := some 123456789, LATITUDE := some 10, LONGITUDE := some 20,
        TIMESTAMP := none, COG := none, SOG := some (-1), HEADING := none,
        DESTINATION := none, ETA := none } = none :=
  ⟨Or.inr (Or.inl ⟨-1, rfl, by norm_num⟩),
   invalid_nav_fields_reject_record.1 0
     { MMSI := some 123456789, LATITUDE := some 10, LONGITUDE := some 20,
       TIMESTAMP := none, COG := none, SOG := some (-1), HEADING := none,
       DESTINATION := none, ETA := none }
     (Or.inr (Or.inl ⟨-1, rfl, by norm_num⟩))⟩

theorem VesselPositionCreate.make_stripRaw_raw_irrel {mmsi : ℤ} {lat lon : ℚ}
    {cog sog hdg : Option ℚ} {ns : Option NavigationStatus}
    {dest : Option String} {eta : Option Timestamp} {ts msgts : Timestamp}
    {src : String} (raw1 raw2 : Option String) :
    Option.map VesselPositionCreate.stripRaw
        (VesselPositionCreate.make mmsi lat lon cog sog hdg ns dest eta ts msgts src raw1)
      = Option.map VesselPositionCreate.stripRaw
          (VesselPositionCreate.make mmsi lat lon cog sog hdg ns dest eta ts msgts src raw2) := by
  unfold VesselPositionCreate.make
  split_ifs <;> simp [VesselPositionCreate.stripRaw]

/-- C1, counterexample: the AISHub parser does not normalize a heading of
511 to an absent true_heading.  It forwards 511 into the pydantic model,
whose bound true_heading < 360 fails, so the whole record is rejected and
parse returns None — while the same message without the heading parses to
a record.  The 511 sentinel therefore does change the outcome: no record
is returned at all. -/
theorem heading511_aishub_rejects_record :
    AISHubCollector.parse_message 0
      { MMSI := some 123456789, LATITUDE := some 10, LONGITUDE := some 20,
        TIMESTAMP := none, COG := none, SOG := none, HEADING := some 511,
        DESTINATION := none, ETA := none } = none ∧
    (AISHubCollector.parse_message 0
      { MMSI := some 123456789, LATITUDE := some 10, LONGITUDE := some 20,
        TIMESTAMP := none, COG := none, SOG := none, HEADING := none,
        DESTINATION := none, ETA := none }).map
      (fun r => (r.mmsi, r.latitude, r.longitude, r.true_heading))
      = some (123456789, 10, 20, none) := by
  constructor <;> rfl

/-- C1, amended: the heading value 511 normalizes to an absent
true_heading only in the AISStream and Digitraffic parsers — there it
causes no other change to the result (for AISStream, no change apart from
the serialized raw frame stored in raw_message).  In the AISHub and
MarinePlan parsers a heading of 511 instead makes the whole record be
rejected: parse returns None. -/
theorem heading511_normalization :
    (∀ (now : Timestamp) (m : AISHubMsg), m.HEADING = some 511 →
        AISHubCollector.parse_message now m = none)
    ∧ (∀ (now : Timestamp) (m : MarinePlanMsg), m.heading = some 511 →
        MarinePlanCollector.parse_message now m = none)
    ∧ (∀ (now : Timestamp) (m : AISStreamMsg),
        Option.map VesselPositionCreate.stripRaw
            (AISStreamCollector.parse_message now (m.withHeading (some 511)))
          = Option.map VesselPositionCreate.stripRaw
              (AISStreamCollector.parse_message now (m.withHeading none))
        ∧ ∀ r, AISStreamCollector.parse_message now (m.withHeading (some 511)) = some r →
            r.true_heading = none)
    ∧ (∀ (now : Timestamp) (m : DigiTrafficMsg),
        DigitalTrafficCollector.parse_message now { m with properties_heading := some 511 }
          = DigitalTrafficCollector.parse_message now { m with properties_heading := none }
        ∧ ∀ r, DigitalTrafficCollector.parse_message now
              { m with properties_heading := some 511 } = some r →
            r.true_heading = none) := by
  refine ⟨?_, ?_, ?_, ?_⟩
  · intro now m hH
    simp only [AISHubCollector.parse_message]
    cases hM : m.MMSI with
    | none => rfl
    | some mm =>
      simp only
      by_cases h0 : mm = 0
      · rw [if_pos h0]
      · rw [if_neg h0]
        rw [hH, pyTruthyFloat_of_violating (Or.inr (by norm_num))]
        split_ifs <;>
          first
          | rfl
          | exact VesselPositionCreate.make_none_of_bad_hdg (by norm_num)
  · intro now m hH
    simp only [MarinePlanCollector.parse_message]
    cases hM : m.mmsi with
    | none => rfl
    | some mm =>
      simp only
      by_cases h0 : mm = 0
      · rw [if_pos h0]
      · rw [if_neg h0]
        cases hLat : m.position_latitude with
        | none => rfl
        | some lat =>
          cases hLon : m.position_longitude with
          | none => rfl
          | some lon =>
            simp only
            rw [hH]
            split_ifs <;>
              first
              | rfl
              | exact VesselPositionCreate.make_none_of_bad_hdg (by norm_num)
  · intro now m
    cases hmd : m.Message with
    | none =>
      constructor
      · simp [AISStreamMsg.withHeading, hmd, AISStreamCollector.parse_message]
      · intro r hr
        simp [AISStreamMsg.withHeading, hmd, AISStreamCollector.parse_message] at hr
    | some md =>
      have h511 : (m.withHeading (some 511)).Message
          = some { md with TrueHeading := some 511 } := by
        simp [AISStreamMsg.withHeading, hmd]
      have hno : (m.withHeading none).Message
          = some { md with TrueHeading := none } := by
        simp [AISStreamMsg.withHeading, hmd]
      constructor
      · simp only [AISStreamCollector.parse_message, h511, hno]
        cases hU : md.UserID with
        | none => rfl
        | some mm =>
          simp only
          by_cases h0 : mm = 0
          · rw [if_pos h0, if_pos h0]
          · rw [if_neg h0, if_neg h0]
            cases hLat : md.Latitude with
            | none => rfl
            | some lat =>
              cases hLon : md.Longitude with
              | none => rfl
              | some lon =>
                simp only [AISStreamMsg.withHeading]
                split_ifs with hrange <;>
                  first
                  | rfl
                  | exact VesselPositionCreate.make_stripRaw_raw_irrel _ _
      · intro r hr
        simp only [AISStreamCollector.parse_message, h511] at hr
        cases hU : md.UserID with
        | none => rw [hU] at hr; exact Option.noConfusion hr
        | some mm =>
          rw [hU] at hr
          simp only at hr
          by_cases h0 : mm = 0
          · rw [if_pos h0] at hr; exact Option.noConfusion hr
          · rw [if_neg h0] at hr
            cases hLat : md.Latitude with
            | none => rw [hLat] at hr; exact Option.noConfusion hr
            | some lat =>
              cases hLon : md.Longitude with
              | none => rw [hLat, hLon] at hr; exact Option.noConfusion hr
              | some lon =>
                rw [hLat, hLon] at hr
                simp only at hr
                by_cases hrange :
                    (-90 ≤ lat ∧ lat ≤ 90) ∧ (-180 ≤ lon ∧ lon ≤ 180)
                · rw [if_pos hrange] at hr
                  simp only [if_true] at hr
                  rw [VesselPositionCreate.make_eq_some hr]
                · rw [if_neg hrange] at hr; exact Option.noConfusion hr
  · intro now m
    constructor
    · simp only [DigitalTrafficCollector.parse_message]
      cases hM : m.properties_mmsi with
      | none => rfl
      | some mm =>
        simp only
        by_cases h0 : mm = 0
        · rw [if_pos h0, if_pos h0]
        · rw [if_neg h0, if_neg h0]
          cases hC : m.geometry_coordinates with
          | nil => rfl
          | cons lon rest =>
            cases rest with
            | nil => rfl
            | cons lat rest2 =>
              simp only
              split_ifs with hrange <;> rfl
    · intro r hr
      simp only [DigitalTrafficCollector.parse_message] at hr
      cases hM : m.properties_mmsi with
      | none => rw [hM] at hr; exact Option.noConfusion hr
      | some mm =>
        rw [hM] at hr
        simp only at hr
        by_cases h0 : mm = 0
        · rw [if_pos h0] at hr; exact Option.noConfusion hr
        · rw [if_neg h0] at hr
          cases hC : m.geometry_coordinates with
          | nil => rw [hC] at hr; exact Option.noConfusion hr
          | cons lon rest =>
            cases rest with
            | nil => rw [hC] at hr; exact Option.noConfusion hr
            | cons lat rest2 =>
              rw [hC] at hr
              simp only at hr
              by_cases hrange :
                  (-90 ≤ lat ∧ lat ≤ 90) ∧ (-180 ≤ lon ∧ lon ≤ 180)
              · rw [if_pos hrange] at hr
                simp only [if_true] at hr
                rw [VesselPositionCreate.make_eq_some hr]
              · rw [if_neg hrange] at hr; exact Option.noConfusion hr

/-- C1, witness for the amended theorem: concrete messages with heading
511 — rejected whole by the AISHub and MarinePlan parsers, normalized to
an absent heading by the AISStream parser. -/
theorem heading511_normalization_witness :
    AISHubCollector.parse_message 0
      { MMSI := some 123456789, LATITUDE := some 10, LONGITUDE := some 20,
        TIMESTAMP := none, COG := none, SOG := some 5, HEADING := some 511,
        DESTINATION := none, ETA := none } = none ∧
    MarinePlanCollector.parse_message 0
      { mmsi := some 123456789, position_latitude := some 10,
        position_longitude := some 20, timestamp := none, course := none,
        speed := none, heading := some 511, destination := none,
        eta := none } = none ∧
    (AISStreamCollector.parse_message 0
      (AISStreamMsg.withHeading
        { Message := some { UserID := some 123456789, Latitude := some 10,
                            Longitude := some 20, CourseOverGround := none,
                            SpeedOverGround := none, TrueHeading := none,
                            NavigationalStatus := none },
          MetaData_time_utc := none } (some 511))).map
      (fun r => r.true_heading) = some none := by
  refine ⟨?_, ?_, ?_⟩
  · exact heading511_normalization.1 0
      { MMSI := some 123456789, LATITUDE := some 10, LONGITUDE := some 20,
        TIMESTAMP := none, COG := none, SOG := some 5, HEADING := some 511,
        DESTINATION := none, ETA := none } rfl
  · exact heading511_normalization.2.1 0
      { mmsi := some 123456789, position_latitude := some 10,
        position_longitude := some 20, timestamp := none, course := none,
        speed := none, heading := some 511, destination := none,
        eta := none } rfl
  · rfl

/-- C2, counterexample: the AISHub parser does not reject a message with
missing coordinate fields.  raw_message.get with default 0 turns the
absent LATITUDE and LONGITUDE into 0.0, the range check passes, and a
record with coordinates exactly (0,0) is produced for publication. -/
theorem missing_coords_aishub_yields_origin :
    (AISHubCollector.parse_message 0
      { MMSI := some 123456789, LATITUDE := none, LONGITUDE := none,
        TIMESTAMP := none, COG := none, SOG := none, HEADING := none,
        DESTINATION := none, ETA := none }).map
      (fun r => (r.latitude, r.longitude)) = some (0, 0) := by
  rfl

/-- C2, amended: the MyShipTracking vessel parser rejects a payload whose
lat and lng are both 0 after defaulting (so absent coordinates are
rejected there), and the AISStream, MarinePlan and Digitraffic parsers
reject a message whose coordinate fields are missing; the AISHub parser
however defaults missing LATITUDE and LONGITUDE to 0 and produces a
record with coordinates exactly (0,0) whenever the rest of the message is
valid. -/
theorem zero_coordinate_handling :
    (∀ v : MSTVesselData, v.lat.getD 0 = 0 → v.lng.getD 0 = 0 →
        AISCollector.parse_myshiptracking_vessel v = none)
    ∧ (∀ (now : Timestamp) (m : AISStreamMsg) (md : AISStreamMessageData),
        m.Message = some md → (md.Latitude = none ∨ md.Longitude = none) →
        AISStreamCollector.parse_message now m = none)
    ∧ (∀ (now : Timestamp) (m : MarinePlanMsg),
        (m.position_latitude = none ∨ m.position_longitude = none) →
        MarinePlanCollector.parse_message now m = none)
    ∧ (∀ (now : Timestamp) (m : DigiTrafficMsg),
        m.geometry_coordinates.length < 2 →
        DigitalTrafficCollector.parse_message now m = none)
    ∧ (∀ (now : Timestamp) (m : AISHubMsg) (mm : ℤ),
        m.MMSI = some mm → mm ≠ 0 → m.LATITUDE = none → m.LONGITUDE = none →
        navFieldsOk (pyTruthyFloat m.COG) (pyTruthyFloat m.SOG)
          (pyTruthyFloat m.HEADING) = true →
        ∃ r, AISHubCollector.parse_message now m = some r ∧
          r.latitude = 0 ∧ r.longitude = 0) := by
  refine ⟨?_, ?_, ?_, ?_, ?_⟩
  · intro v hlat hlng
    simp [AISCollector.parse_myshiptracking_vessel, hlat, hlng]
  · intro now m md hmd hcoord
    simp only [AISStreamCollector.parse_message, hmd]
    cases hU : md.UserID with
    | none => rfl
    | some mm =>
      simp only
      by_cases h0 : mm = 0
      · rw [if_pos h0]
      · rw [if_neg h0]
        rcases hcoord with h | h
        · rw [h]
        · rw [h]
          cases md.Latitude <;> rfl
  · intro now m hcoord
    simp only [MarinePlanCollector.parse_message]
    cases hM : m.mmsi with
    | none => rfl
    | some mm =>
      simp only
      by_cases h0 : mm = 0
      · rw [if_pos h0]
      · rw [if_neg h0]
        rcases hcoord with h | h
        · rw [h]
        · rw [h]
          cases m.position_latitude <;> rfl
  · intro now m hlen
    simp only [DigitalTrafficCollector.parse_message]
    cases hM : m.properties_mmsi with
    | none => rfl
    | some mm =>
      simp only
      by_cases h0 : mm = 0
      · rw [if_pos h0]
      · rw [if_neg h0]
        cases hC : m.geometry_coordinates with
        | nil => rfl
        | cons a rest =>
          cases rest with
          | nil => rfl
          | cons b rest2 =>
            rw [hC] at hlen
            simp only [List.length_cons] at hlen
            omega
  · intro now m mm hM h0 hLat hLon hnav
    simp only [navFieldsOk, Bool.and_eq_true] at hnav
    obtain ⟨⟨hc, hsg⟩, hh⟩ := hnav
    refine ⟨⟨mm, 0, 0, pyTruthyFloat m.COG, pyTruthyFloat m.SOG,
      pyTruthyFloat m.HEADING, none,
      (if (m.DESTINATION.getD "").trim = "" then none
       else some ((m.DESTINATION.getD "").trim)),
      m.ETA, m.TIMESTAMP.getD now, m.TIMESTAMP.getD now, "aishub", none⟩,
      ?_, rfl, rfl⟩
    simp only [AISHubCollector.parse_message, hM, hLat, hLon, Option.getD_none]
    rw [if_neg h0,
      if_pos (show ((-90:ℚ) ≤ 0 ∧ (0:ℚ) ≤ 90) ∧ ((-180:ℚ) ≤ 0 ∧ (0:ℚ) ≤ 180)
        by norm_num)]
    exact VesselPositionCreate.make_some_of_ok (by norm_num [coordFieldOk]) hc hsg hh

/-- C2, witness for the amended theorem: a MyShipTracking payload with a
missing lat field (defaulting to 0) and lng 0 is rejected, while an
AISHub message with both coordinate keys missing parses to a record at
(0,0). -/
theorem zero_coordinate_handling_witness :
    AISCollector.parse_myshiptracking_vessel
      { mmsi := some 123456789, lat := none, lng := some 0,
        received := some 0, speed := none, course := none } = none ∧
    ∃ r, AISHubCollector.parse_message 0
      { MMSI := some 123456789, LATITUDE := none, LONGITUDE := none,
        TIMESTAMP := none, COG := none, SOG := none, HEADING := none,
        DESTINATION := none, ETA := none } = some r ∧
      r.latitude = 0 ∧ r.longitude = 0 :=
  ⟨zero_coordinate_handling.1
    { mmsi := some 123456789, lat := none, lng := some 0,
      received := some 0, speed := none, course := none } rfl rfl,
   zero_coordinate_handling.2.2.2.2 0
    { MMSI := some 123456789, LATITUDE := none, LONGITUDE := none,
      TIMESTAMP := none, COG := none, SOG := none, HEADING := none,
      DESTINATION := none, ETA := none } 123456789 rfl (by decide) rfl rfl rfl⟩

/-- C4, counterexample: parse does not produce a record for every raw
message whose latitude and longitude are in range: the AISHub parser
rejects this message with latitude 10 and longitude 20 (both in range)
because its MMSI key is missing. -/
theorem valid_coords_missing_mmsi_rejected :
    AISHubCollector.parse_message 0
      { MMSI := none, LATITUDE := some 10, LONGITUDE := some 20,
        TIMESTAMP := none, COG := none, SOG := none, HEADING := none,
        DESTINATION := none, ETA := none } = none ∧
    (((-90:ℚ) ≤ 10 ∧ (10:ℚ) ≤ 90) ∧ ((-180:ℚ) ≤ 20 ∧ (20:ℚ) ≤ 180)) :=
  ⟨rfl, by norm_num⟩

/-- C4, amended: every parser carries present, in-range latitude and
longitude values into the record unchanged, provided the rest of the
message is acceptable (MMSI present and nonzero, navigation fields inside
the canonical bounds — otherwise the record is rejected for that reason,
see the companion counterexample); and every message whose present
coordinates lie outside [-90,90] x [-180,180] is rejected
unconditionally. -/
theorem parse_coordinate_range :
    (∀ (now : Timestamp) (m : AISHubMsg) (mm : ℤ) (lat lon : ℚ),
        m.MMSI = some mm → mm ≠ 0 →
        m.LATITUDE = some lat → m.LONGITUDE = some lon →
        navFieldsOk (pyTruthyFloat m.COG) (pyTruthyFloat m.SOG)
          (pyTruthyFloat m.HEADING) = true →
        ((-90 ≤ lat ∧ lat ≤ 90) ∧ (-180 ≤ lon ∧ lon ≤ 180)) →
        ∃ r, AISHubCollector.parse_message now m = some r ∧
          r.latitude = lat ∧ r.longitude = lon)
    ∧ (∀ (now : Timestamp) (m : AISHubMsg) (lat lon : ℚ),
        m.LATITUDE = some lat → m.LONGITUDE = some lon →
        ¬ ((-90 ≤ lat ∧ lat ≤ 90) ∧ (-180 ≤ lon ∧ lon ≤ 180)) →
        AISHubCollector.parse_message now m = none)
    ∧ (∀ (now : Timestamp) (m : AISStreamMsg) (md : AISStreamMessageData)
        (mm : ℤ) (lat lon : ℚ),
        m.Message = some md → md.UserID = some mm → mm ≠ 0 →
        md.Latitude = some lat → md.Longitude = some lon →
        navFieldsOk md.CourseOverGround md.SpeedOverGround
          (if md.TrueHeading = some 511 then none else md.TrueHeading) = true →
        ((-90 ≤ lat ∧ lat ≤ 90) ∧ (-180 ≤ lon ∧ lon ≤ 180)) →
        ∃ r, AISStreamCollector.parse_message now m = some r ∧
          r.latitude = lat ∧ r.longitude = lon)
    ∧ (∀ (now : Timestamp) (m : AISStreamMsg) (md : AISStreamMessageData)
        (lat lon : ℚ),
        m.Message = some md →
        md.Latitude = some lat → md.Longitude = some lon →
        ¬ ((-90 ≤ lat ∧ lat ≤ 90) ∧ (-180 ≤ lon ∧ lon ≤ 180)) →
        AISStreamCollector.parse_message now m = none)
    ∧ (∀ (now : Timestamp) (m : MarinePlanMsg) (mm : ℤ) (lat lon : ℚ),
        m.mmsi = some mm → mm ≠ 0 →
        m.position_latitude = some lat → m.position_longitude = some lon →
        navFieldsOk m.course m.speed m.heading = true →
        ((-90 ≤ lat ∧ lat ≤ 90) ∧ (-180 ≤ lon ∧ lon ≤ 180)) →
        ∃ r, MarinePlanCollector.parse_message now m = some r ∧
          r.latitude = lat ∧ r.longitude = lon)
    ∧ (∀ (now : Timestamp) (m : MarinePlanMsg) (lat lon : ℚ),
        m.position_latitude = some lat → m.position_longitude = some lon →
        ¬ ((-90 ≤ lat ∧ lat ≤ 90) ∧ (-180 ≤ lon ∧ lon ≤ 180)) →
        MarinePlanCollector.parse_message now m = none)
    ∧ (∀ (now : Timestamp) (m : DigiTrafficMsg) (mm : ℤ) (lat lon : ℚ)
        (rest : List ℚ),
        m.properties_mmsi = some mm → mm ≠ 0 →
        m.geometry_coordinates = lon :: lat :: rest →
        navFieldsOk m.properties_cog m.properties_sog
          (if m.properties_heading = some 511 then none
           else m.properties_heading) = true →
        ((-90 ≤ lat ∧ lat ≤ 90) ∧ (-180 ≤ lon ∧ lon ≤ 180)) →
        ∃ r, DigitalTrafficCollector.parse_message now m = some r ∧
          r.latitude = lat ∧ r.longitude = lon)
    ∧ (∀ (now : Timestamp) (m : DigiTrafficMsg) (lat lon : ℚ) (rest : List ℚ),
        m.geometry_coordinates = lon :: lat :: rest →
        ¬ ((-90 ≤ lat ∧ lat ≤ 90) ∧ (-180 ≤ lon ∧ lon ≤ 180)) →
        DigitalTrafficCollector.parse_message now m = none) := by
  refine ⟨?_, ?_, ?_, ?_, ?_, ?_, ?_, ?_⟩
  · intro now m mm lat lon hM h0 hLat hLon hnav hin
    simp only [navFieldsOk, Bool.and_eq_true] at hnav
    obtain ⟨⟨hc, hsg⟩, hh⟩ := hnav
    refine ⟨⟨mm, lat, lon, pyTruthyFloat m.COG, pyTruthyFloat m.SOG,
      pyTruthyFloat m.HEADING, none,
      (if (m.DESTINATION.getD "").trim = "" then none
       else some ((m.DESTINATION.getD "").trim)),
      m.ETA, m.TIMESTAMP.getD now, m.TIMESTAMP.getD now, "aishub", none⟩,
      ?_, rfl, rfl⟩
    simp only [AISHubCollector.parse_message, hM, hLat, hLon, Option.getD_some]
    rw [if_neg h0, if_pos hin]
    exact VesselPositionCreate.make_some_of_ok (coordFieldOk_iff.mpr hin) hc hsg hh
  · intro now m lat lon hLat hLon hout
    simp only [AISHubCollector.parse_message]
    cases hM : m.MMSI with
    | none => rfl
    | some mm =>
      simp only
      by_cases h0 : mm = 0
      · rw [if_pos h0]
      · rw [if_neg h0]
        rw [hLat, hLon]
        simp only [Option.getD_some]
        rw [if_neg hout]
  · intro now m md mm lat lon hmd hU h0 hLat hLon hnav hin
    simp only [navFieldsOk, Bool.and_eq_true] at hnav
    obtain ⟨⟨hc, hsg⟩, hh⟩ := hnav
    refine ⟨⟨mm, lat, lon, md.CourseOverGround, md.SpeedOverGround,
      (if md.TrueHeading = some 511 then none else md.TrueHeading),
      Option.map statusMap md.NavigationalStatus, none, none,
      m.MetaData_time_utc.getD now, m.MetaData_time_utc.getD now, "aisstream",
      some m.dumps⟩, ?_, rfl, rfl⟩
    simp only [AISStreamCollector.parse_message, hmd, hU, hLat, hLon]
    rw [if_neg h0, if_pos hin]
    exact VesselPositionCreate.make_some_of_ok (coordFieldOk_iff.mpr hin) hc hsg hh
  · intro now m md lat lon hmd hLat hLon hout
    simp only [AISStreamCollector.parse_message, hmd]
    cases hU : md.UserID with
    | none => rfl
    | some mm =>
      simp only
      by_cases h0 : mm = 0
      · rw [if_pos h0]
      · rw [if_neg h0]
        rw [hLat, hLon]
        simp only
        rw [if_neg hout]
  · intro now m mm lat lon hM h0 hLat hLon hnav hin
    simp only [navFieldsOk, Bool.and_eq_true] at hnav
    obtain ⟨⟨hc, hsg⟩, hh⟩ := hnav
    refine ⟨⟨mm, lat, lon, m.course, m.speed, m.heading, none,
      (if (m.destination.getD "").trim = "" then none
       else some ((m.destination.getD "").trim)),
      m.eta, m.timestamp.getD now, m.timestamp.getD now, "marineplan", none⟩,
      ?_, rfl, rfl⟩
    simp only [MarinePlanCollector.parse_message, hM, hLat, hLon]
    rw [if_neg h0, if_pos hin]
    exact VesselPositionCreate.make_some_of_ok (coordFieldOk_iff.mpr hin) hc hsg hh
  · intro now m lat lon hLat hLon hout
    simp only [MarinePlanCollector.parse_message]
    cases hM : m.mmsi with
    | none => rfl
    | some mm =>
      simp only
      by_cases h0 : mm = 0
      · rw [if_pos h0]
      · rw [if_neg h0]
        rw [hLat, hLon]
        simp only
        rw [if_neg hout]
  · intro now m mm lat lon rest hM h0 hC hnav hin
    simp only [navFieldsOk, Bool.and_eq_true] at hnav
    obtain ⟨⟨hc, hsg⟩, hh⟩ := hnav
    refine ⟨⟨mm, lat, lon, m.properties_cog, m.properties_sog,
      (if m.properties_heading = some 511 then none else m.properties_heading),
      Option.map statusMap m.properties_navStat, none, none,
      m.properties_timestampExternal.getD now,
      m.properties_timestampExternal.getD now, "digitraffic", none⟩,
      ?_, rfl, rfl⟩
    simp only [DigitalTrafficCollector.parse_message, hM, hC]
    rw [if_neg h0, if_pos hin]
    exact VesselPositionCreate.make_some_of_ok (coordFieldOk_iff.mpr hin) hc hsg hh
  · intro now m lat lon rest hC hout
    simp only [DigitalTrafficCollector.parse_message]
    cases hM : m.properties_mmsi with
    | none => rfl
    | some mm =>
      simp only
      by_cases h0 : mm = 0
      · rw [if_pos h0]
      · rw [if_neg h0]
        rw [hC]
        simp only
        rw [if_neg hout]

/-- C4, witness for the amended theorem: a well-formed AISHub message
with in-range coordinates (10, 20) parses to a record carrying exactly
those values, and the same message with latitude 91 is rejected. -/
theorem parse_coordinate_range_witness :
    (∃ r, AISHubCollector.parse_message 0
      { MMSI := some 123456789, LATITUDE := some 10, LONGITUDE := some 20,
        TIMESTAMP := none, COG := none, SOG := none, HEADING := none,
        DESTINATION := none, ETA := none } = some r ∧
      r.latitude = 10 ∧ r.longitude = 20) ∧
    AISHubCollector.parse_message 0
      { MMSI := some 123456789, LATITUDE := some 91, LONGITUDE := some 20,
        TIMESTAMP := none, COG := none, SOG := none, HEADING := none,
        DESTINATION := none, ETA := none } = none :=
  ⟨parse_coordinate_range.1 0
    { MMSI := some 123456789, LATITUDE := some 10, LONGITUDE := some 20,
      TIMESTAMP := none, COG := none, SOG := none, HEADING := none,
      DESTINATION := none, ETA := none } 123456789 10 20 rfl (by decide)
    rfl rfl rfl (by norm_num),
   parse_coordinate_range.2.1 0
    { MMSI := some 123456789, LATITUDE := some 91, LONGITUDE := some 20,
      TIMESTAMP := none, COG := none, SOG := none, HEADING := none,
      DESTINATION := none, ETA := none } 91 20 rfl rfl (by norm_num)⟩
